import Mathlib

/-!
# Skycast client configuration (static/config.js)

A shallow embedding of the configuration script and the properties of its
settings record.

The script does three things, in order:

1. line 4-23: builds the object literal CONFIG; the only non-literal field is
   API_BASE_URL, read from window.location.origin;
2. line 26-28: the auto-detect step, which may raise FEATURES.GOOGLE_SIGNIN;
3. line 31-35: publishes CONFIG, either as module.exports or as window.CONFIG.

Modelling choices.

* JavaScript values are a tree type JSVal. Objects are association lists in
  insertion order; object identity, getters, proxies and prototype chains are
  not modelled, so a property that is not an own property reads as undefined.
* Numbers are integer valued (the script never computes with a number; it only
  copies values and tests truthiness).
* A global identifier is an Option: none is an undeclared identifier (reading it
  raises ReferenceError, typeof yields "undefined"), some v is a binding holding v.
* Strings are Lean strings; the script only compares them for equality and
  emptiness.
* The value of GOOGLE_CLIENT_ID is a parameter of the embedding: the shipped
  literal is DEMO_CLIENT_ID and the source asks the deployer to replace it.
* loadModule is one evaluation of the file in a fresh realm; the lexical binding
  that const CONFIG creates is not part of Env, so nothing is stated about
  evaluating the file again in the realm a run has left.
-/

namespace Skycast

/-! ## JavaScript values and the two errors the script can raise -/

/-- The exceptions that can escape the script. -/
inductive JSError where
  | ReferenceError
  | TypeError
  deriving DecidableEq, Repr

/-- JavaScript values, as far as the script can observe them. -/
inductive JSVal where
  | undefined
  | null
  | bool (b : Bool)
  | num (n : Int)
  | str (s : String)
  | obj (props : List (String × JSVal))

/-- ToBoolean: undefined, null, false, 0 and the empty string are falsy. -/
def truthy : JSVal → Bool
  | .undefined => false
  | .null => false
  | .bool b => b
  | .num n => n != 0
  | .str s => s != ""
  | .obj _ => true

/-- The test typeof v !== "undefined" on a value. -/
def isDefined : JSVal → Bool
  | .undefined => false
  | _ => true

/-- Own-property lookup in an association list. -/
def lookupProp (k : String) : List (String × JSVal) → JSVal
  | [] => .undefined
  | (k', v) :: rest => if k' = k then v else lookupProp k rest

/-- Property read v.k: TypeError on undefined and null, the own property on an
object, undefined on the other primitives. -/
def getProp (v : JSVal) (k : String) : Except JSError JSVal :=
  match v with
  | .undefined => .error .TypeError
  | .null => .error .TypeError
  | .obj props => .ok (lookupProp k props)
  | _ => .ok .undefined

/-- Write of an own property: an existing key keeps its position, a new key is
appended. -/
def assignProp (k : String) (x : JSVal) : List (String × JSVal) → List (String × JSVal)
  | [] => [(k, x)]
  | (k', v) :: rest => if k' = k then (k', x) :: rest else (k', v) :: assignProp k x rest

/-- Property write v.k = x in a classic (non-strict) script: TypeError on
undefined and null, an update on an object, silently ignored on the other
primitives. -/
def setProp (v : JSVal) (k : String) (x : JSVal) : Except JSError JSVal :=
  match v with
  | .undefined => .error .TypeError
  | .null => .error .TypeError
  | .obj props => .ok (.obj (assignProp k x props))
  | p => .ok p

/-- Read of a global identifier: ReferenceError when it is not declared. -/
def readGlobal : Option JSVal → Except JSError JSVal
  | none => .error .ReferenceError
  | some v => .ok v

/-! ## The settings record -/

/-- CONFIG.FEATURES (lines 17-22). -/
structure Features where
  GOOGLE_SIGNIN : Bool
  EMAIL_SIGNUP : Bool
  WEATHER_FORECAST : Bool
  USER_PROFILES : Bool
  deriving DecidableEq, Repr

/-- CONFIG (lines 4-23). API_BASE_URL holds whatever value the host supplied. -/
structure Config where
  GOOGLE_CLIENT_ID : String
  APP_NAME : String
  APP_VERSION : String
  API_BASE_URL : JSVal
  FEATURES : Features

/-- The client id literal of the shipped file (line 7). -/
def shippedClientId : String := "DEMO_CLIENT_ID"

/-- The object literal of lines 4-23, with the client id and the value read
from window.location.origin as parameters. -/
def configLiteral (clientId : String) (origin : JSVal) : Config :=
  { GOOGLE_CLIENT_ID := clientId
    APP_NAME := "Skycast"
    APP_VERSION := "1.0.0"
    API_BASE_URL := origin
    FEATURES :=
      { GOOGLE_SIGNIN := false
        EMAIL_SIGNUP := true
        WEATHER_FORECAST := true
        USER_PROFILES := true } }

/-- The condition of line 26:
CONFIG.GOOGLE_CLIENT_ID && CONFIG.GOOGLE_CLIENT_ID !== "DEMO_CLIENT_ID". -/
def autoDetectCond (cfg : Config) : Bool :=
  truthy (.str cfg.GOOGLE_CLIENT_ID) && (cfg.GOOGLE_CLIENT_ID != "DEMO_CLIENT_ID")

/-- The auto-detect step (lines 26-28): when the condition holds the flag is
assigned true; there is no else branch. -/
def autoDetect (cfg : Config) : Config :=
  if autoDetectCond cfg then
    { cfg with FEATURES := { cfg.FEATURES with GOOGLE_SIGNIN := true } }
  else
    cfg

/-- Lines 4-28 once the origin has been read: literal, then auto-detect. -/
def initConfig (clientId : String) (origin : JSVal) : Config :=
  autoDetect (configLiteral clientId origin)

/-- The FEATURES object as a JavaScript value. -/
def Features.toJS (f : Features) : JSVal :=
  .obj [("GOOGLE_SIGNIN", .bool f.GOOGLE_SIGNIN),
        ("EMAIL_SIGNUP", .bool f.EMAIL_SIGNUP),
        ("WEATHER_FORECAST", .bool f.WEATHER_FORECAST),
        ("USER_PROFILES", .bool f.USER_PROFILES)]

/-- The CONFIG object as a JavaScript value, keys in literal order. -/
def Config.toJS (cfg : Config) : JSVal :=
  .obj [("GOOGLE_CLIENT_ID", .str cfg.GOOGLE_CLIENT_ID),
        ("APP_NAME", .str cfg.APP_NAME),
        ("APP_VERSION", .str cfg.APP_VERSION),
        ("API_BASE_URL", cfg.API_BASE_URL),
        ("FEATURES", cfg.FEATURES.toJS)]

/-! ## The host environment and the script -/

/-- The two global identifiers the script touches. -/
structure Env where
  window : Option JSVal
  module : Option JSVal

/-- State after the script has run to completion: the value bound to the
constant CONFIG and the globals as the script left them. -/
structure Loaded where
  config : Config
  env : Env

/-- The condition of line 31: typeof module !== "undefined" && module.exports.
The typeof test does not raise on an undeclared identifier; the property read
raises on null. -/
def moduleCond (env : Env) : Except JSError Bool :=
  match env.module with
  | none => .ok false
  | some m =>
    if isDefined m then
      match getProp m "exports" with
      | .error e => .error e
      | .ok x => .ok (truthy x)
    else
      .ok false

/-- Lines 31-35: publish cfg as module.exports or as window.CONFIG. -/
def publish (cfg : Config) (env : Env) : Except JSError Env :=
  match moduleCond env with
  | .error e => .error e
  | .ok true =>
    match readGlobal env.module with
    | .error e => .error e
    | .ok m =>
      match setProp m "exports" cfg.toJS with
      | .error e => .error e
      | .ok m' => .ok { env with module := some m' }
  | .ok false =>
    match readGlobal env.window with
    | .error e => .error e
    | .ok w =>
      match setProp w "CONFIG" cfg.toJS with
      | .error e => .error e
      | .ok w' => .ok { env with window := some w' }

/-- The expression window.location.origin of line 14. -/
def readOrigin (env : Env) : Except JSError JSVal :=
  match readGlobal env.window with
  | .error e => .error e
  | .ok w =>
    match getProp w "location" with
    | .error e => .error e
    | .ok loc => getProp loc "origin"

/-- The whole script, top to bottom, evaluated once in a fresh realm. A second
evaluation of the file in the same realm is not modelled: the const declaration
of line 4 would be rejected there before any statement runs. -/
def loadModule (clientId : String) (env : Env) : Except JSError Loaded :=
  match readOrigin env with
  | .error e => .error e
  | .ok origin =>
    let cfg := initConfig clientId origin
    match publish cfg env with
    | .error e => .error e
    | .ok env' => .ok { config := cfg, env := env' }

/-- A browser page: window with a location carrying the given origin, and no
module identifier. -/
def browserEnv (origin : String) : Env :=
  { window := some (.obj [("location", .obj [("origin", .str origin)])])
    module := none }

/-- A CommonJS-style host that also provides window (a bundler or jsdom). -/
def commonJSEnv (origin : String) : Env :=
  { window := some (.obj [("location", .obj [("origin", .str origin)])])
    module := some (.obj [("exports", .obj [])]) }

/-- A host with no window identifier at all. -/
def noWindowEnv : Env :=
  { window := none, module := some (.obj [("exports", .obj [])]) }

/-- A host whose window has no location property. -/
def noLocationEnv : Env :=
  { window := some (.obj []), module := none }

/-- A host whose location has no origin property. -/
def noOriginEnv : Env :=
  { window := some (.obj [("location", .obj [])]), module := none }

/-- A host whose location has no origin property and whose module identifier is
bound to null. -/
def nullModuleEnv : Env :=
  { window := some (.obj [("location", .obj [])]), module := some .null }

/-- A settings record whose GOOGLE_SIGNIN flag is already true before the
auto-detect step runs. -/
def presetRecord (clientId : String) : Config :=
  { GOOGLE_CLIENT_ID := clientId
    APP_NAME := "Skycast"
    APP_VERSION := "1.0.0"
    API_BASE_URL := .str "https://skycast.example"
    FEATURES :=
      { GOOGLE_SIGNIN := true
        EMAIL_SIGNUP := true
        WEATHER_FORECAST := true
        USER_PROFILES := true } }

/-! ## Property reads and writes -/

theorem lookupProp_assignProp_same (k : String) (x : JSVal) (ps : List (String × JSVal)) :
    lookupProp k (assignProp k x ps) = x := by
  induction ps with
  | nil => simp [assignProp, lookupProp]
  | cons p rest ih =>
    obtain ⟨k', v⟩ := p
    by_cases h : k' = k
    · simp [assignProp, lookupProp, h]
    · simp [assignProp, lookupProp, h, ih]

theorem lookupProp_assignProp_other (k j : String) (x : JSVal) (ps : List (String × JSVal))
    (hkj : k ≠ j) : lookupProp j (assignProp k x ps) = lookupProp j ps := by
  induction ps with
  | nil => simp [assignProp, lookupProp, hkj]
  | cons p rest ih =>
    obtain ⟨k', v⟩ := p
    by_cases h : k' = k
    · subst h
      simp [assignProp, lookupProp, hkj]
    · by_cases hj : k' = j
      · subst hj
        simp [assignProp, lookupProp, h]
      · simp [assignProp, lookupProp, h, hj, ih]

/-! ## When the script runs to completion -/

/-- Reading the origin succeeds only on a window object. -/
theorem readOrigin_ok_window (env : Env) (o : JSVal) (h : readOrigin env = .ok o) :
    ∃ wprops, env.window = some (.obj wprops) ∧
      getProp (lookupProp "location" wprops) "origin" = .ok o := by
  unfold readOrigin at h
  cases hw : env.window with
  | none => simp [hw, readGlobal] at h
  | some w =>
    cases w with
    | obj wprops =>
      refine ⟨wprops, rfl, ?_⟩
      simpa [hw, readGlobal, getProp] using h
    | _ => simp [hw, readGlobal, getProp] at h

/-- The export test is true only on a module object whose exports is truthy. -/
theorem moduleCond_true (env : Env) (h : moduleCond env = .ok true) :
    ∃ mprops, env.module = some (.obj mprops) ∧ truthy (lookupProp "exports" mprops) = true := by
  unfold moduleCond at h
  cases hm : env.module with
  | none => simp [hm] at h
  | some m =>
    cases m with
    | obj mprops =>
      refine ⟨mprops, rfl, ?_⟩
      simpa [hm, isDefined, getProp] using h
    | _ => simp [hm, isDefined, getProp, truthy] at h

/-- The export test raises only when module is bound to null. -/
theorem moduleCond_total (env : Env) (hm : env.module ≠ some .null) :
    ∃ b, moduleCond env = .ok b := by
  unfold moduleCond
  cases h : env.module with
  | none => exact ⟨false, rfl⟩
  | some m =>
    cases m with
    | null => exact absurd h hm
    | undefined => exact ⟨false, by simp [isDefined]⟩
    | bool b => exact ⟨false, by simp [isDefined, getProp, truthy]⟩
    | num n => exact ⟨false, by simp [isDefined, getProp, truthy]⟩
    | str s => exact ⟨false, by simp [isDefined, getProp, truthy]⟩
    | obj mprops => exact ⟨truthy (lookupProp "exports" mprops), by simp [isDefined, getProp]⟩

/-- With a readable origin and a module identifier that is not null, the script
completes; the constant CONFIG is the initialised record and the record is
published by the branch that the export test selects. -/
theorem loadModule_ok (c : String) (env : Env) (o : JSVal)
    (ho : readOrigin env = .ok o) (hm : env.module ≠ some .null) :
    ∃ wprops, env.window = some (.obj wprops) ∧
      ((∃ mprops, env.module = some (.obj mprops) ∧ moduleCond env = .ok true ∧
          loadModule c env = .ok
            { config := initConfig c o
              env := { env with
                module := some (.obj (assignProp "exports" (initConfig c o).toJS mprops)) } }) ∨
       (moduleCond env = .ok false ∧
          loadModule c env = .ok
            { config := initConfig c o
              env := { env with
                window := some (.obj (assignProp "CONFIG" (initConfig c o).toJS wprops)) } })) := by
  obtain ⟨wprops, hw, _⟩ := readOrigin_ok_window env o ho
  obtain ⟨b, hb⟩ := moduleCond_total env hm
  refine ⟨wprops, hw, ?_⟩
  cases b with
  | true =>
    obtain ⟨mprops, hmod, _⟩ := moduleCond_true env hb
    left
    refine ⟨mprops, hmod, hb, ?_⟩
    simp [loadModule, ho, publish, hb, hmod, readGlobal, setProp]
  | false =>
    right
    refine ⟨hb, ?_⟩
    simp [loadModule, ho, publish, hb, hw, readGlobal, setProp]

/-- The script completes exactly when the origin is readable and module is not
bound to null. -/
theorem loadModule_ok_iff (c : String) (env : Env) :
    (∃ r, loadModule c env = .ok r) ↔
      ((∃ o, readOrigin env = .ok o) ∧ env.module ≠ some .null) := by
  constructor
  · rintro ⟨r, hr⟩
    unfold loadModule at hr
    cases ho : readOrigin env with
    | error e => simp [ho] at hr
    | ok o =>
      refine ⟨⟨o, rfl⟩, ?_⟩
      intro hnull
      simp [ho, publish, moduleCond, hnull, isDefined, getProp] at hr
  · rintro ⟨⟨o, ho⟩, hm⟩
    obtain ⟨wprops, _, h | h⟩ := loadModule_ok c env o ho hm
    · obtain ⟨mprops, _, _, hl⟩ := h
      exact ⟨_, hl⟩
    · exact ⟨_, h.2⟩

theorem moduleCond_true_iff (env : Env) :
    moduleCond env = .ok true ↔
      ∃ mprops, env.module = some (.obj mprops) ∧
        truthy (lookupProp "exports" mprops) = true := by
  constructor
  · exact moduleCond_true env
  · rintro ⟨mprops, hmod, ht⟩
    simp [moduleCond, hmod, isDefined, getProp, ht]

theorem initConfig_API_BASE_URL (c : String) (o : JSVal) :
    (initConfig c o).API_BASE_URL = o := by
  unfold initConfig autoDetect
  split <;> simp [configLiteral]

theorem readOrigin_browserEnv (s : String) : readOrigin (browserEnv s) = .ok (.str s) := by
  simp [readOrigin, readGlobal, browserEnv, getProp, lookupProp]

theorem readOrigin_commonJSEnv (s : String) : readOrigin (commonJSEnv s) = .ok (.str s) := by
  simp [readOrigin, readGlobal, commonJSEnv, getProp, lookupProp]

theorem browserEnv_module_ne_null (s : String) : (browserEnv s).module ≠ some .null := by
  simp [browserEnv]

theorem commonJSEnv_module_ne_null (s : String) : (commonJSEnv s).module ≠ some .null := by
  simp [commonJSEnv]

theorem autoDetect_idem (cfg : Config) : autoDetect (autoDetect cfg) = autoDetect cfg := by
  by_cases h : autoDetectCond cfg = true
  · have h2 : autoDetectCond
        { cfg with FEATURES := { cfg.FEATURES with GOOGLE_SIGNIN := true } } = true := h
    simp [autoDetect, h, h2]
  · simp [autoDetect, h]

theorem initConfig_origin_indep (c : String) (o o' : JSVal) :
    (initConfig c o).GOOGLE_CLIENT_ID = (initConfig c o').GOOGLE_CLIENT_ID ∧
    (initConfig c o).APP_NAME = (initConfig c o').APP_NAME ∧
    (initConfig c o).APP_VERSION = (initConfig c o').APP_VERSION ∧
    (initConfig c o).FEATURES = (initConfig c o').FEATURES := by
  have hc : autoDetectCond (configLiteral c o) = autoDetectCond (configLiteral c o') := rfl
  unfold initConfig autoDetect
  rw [hc]
  split <;> simp [configLiteral]

/-! ## The derivation rule -/

/-- C1: for every client id c and every origin value, after the literal is built
with GOOGLE_CLIENT_ID = c and the auto-detect step has run, FEATURES.GOOGLE_SIGNIN
is true exactly when c is non-empty and differs from the sentinel
DEMO_CLIENT_ID. -/
theorem google_signin_iff (c : String) (o : JSVal) :
    (initConfig c o).FEATURES.GOOGLE_SIGNIN = true ↔ (c ≠ "" ∧ c ≠ "DEMO_CLIENT_ID") := by
  unfold initConfig autoDetect
  by_cases h : autoDetectCond (configLiteral c o) = true
  · have h' := h
    simp [autoDetectCond, configLiteral, truthy] at h'
    simp [h, h']
  · have h' := h
    simp [autoDetectCond, configLiteral, truthy] at h'
    simp only [h]
    simp [configLiteral]
    exact h'

/-- C2: in the shipped file (client id literal DEMO_CLIENT_ID) the script, run in
any host where it completes, ends with FEATURES.GOOGLE_SIGNIN false, whatever
value the host supplies as origin. -/
theorem shipped_google_signin_false (env : Env) (o : JSVal)
    (ho : readOrigin env = .ok o) (hm : env.module ≠ some .null) :
    ∃ r, loadModule shippedClientId env = .ok r ∧
      r.config = initConfig shippedClientId o ∧
      r.config.FEATURES.GOOGLE_SIGNIN = false := by
  have hflag : (initConfig shippedClientId o).FEATURES.GOOGLE_SIGNIN = false := by
    simp [initConfig, autoDetect, autoDetectCond, configLiteral, shippedClientId]
  obtain ⟨wprops, _, h | h⟩ := loadModule_ok shippedClientId env o ho hm
  · obtain ⟨mprops, _, _, hl⟩ := h
    exact ⟨_, hl, rfl, hflag⟩
  · exact ⟨_, h.2, rfl, hflag⟩

theorem shipped_google_signin_false_witness :
    readOrigin (browserEnv "https://skycast.example") = .ok (.str "https://skycast.example") ∧
    (browserEnv "https://skycast.example").module ≠ some .null ∧
    ∃ r, loadModule shippedClientId (browserEnv "https://skycast.example") = .ok r ∧
      r.config = initConfig shippedClientId (.str "https://skycast.example") ∧
      r.config.FEATURES.GOOGLE_SIGNIN = false :=
  ⟨readOrigin_browserEnv _, browserEnv_module_ne_null _,
   shipped_google_signin_false (browserEnv "https://skycast.example")
     (.str "https://skycast.example") (readOrigin_browserEnv _) (browserEnv_module_ne_null _)⟩

/-- C3: for every client id and every origin value, the initialised record has
EMAIL_SIGNUP, WEATHER_FORECAST and USER_PROFILES all true. -/
theorem other_flags_true (c : String) (o : JSVal) :
    (initConfig c o).FEATURES.EMAIL_SIGNUP = true ∧
    (initConfig c o).FEATURES.WEATHER_FORECAST = true ∧
    (initConfig c o).FEATURES.USER_PROFILES = true := by
  unfold initConfig autoDetect
  split <;> simp [configLiteral]

/-- C7: for every client id and every origin value, the initialised record has
APP_NAME equal to Skycast and APP_VERSION equal to 1.0.0. -/
theorem app_metadata (c : String) (o : JSVal) :
    (initConfig c o).APP_NAME = "Skycast" ∧ (initConfig c o).APP_VERSION = "1.0.0" := by
  unfold initConfig autoDetect
  split <;> simp [configLiteral]

/-- C8: the auto-detect step changes no field other than FEATURES.GOOGLE_SIGNIN,
for every settings record. -/
theorem autoDetect_frame (cfg : Config) :
    (autoDetect cfg).GOOGLE_CLIENT_ID = cfg.GOOGLE_CLIENT_ID ∧
    (autoDetect cfg).APP_NAME = cfg.APP_NAME ∧
    (autoDetect cfg).APP_VERSION = cfg.APP_VERSION ∧
    (autoDetect cfg).API_BASE_URL = cfg.API_BASE_URL ∧
    (autoDetect cfg).FEATURES.EMAIL_SIGNUP = cfg.FEATURES.EMAIL_SIGNUP ∧
    (autoDetect cfg).FEATURES.WEATHER_FORECAST = cfg.FEATURES.WEATHER_FORECAST ∧
    (autoDetect cfg).FEATURES.USER_PROFILES = cfg.FEATURES.USER_PROFILES := by
  unfold autoDetect
  split <;> simp

/-- C10: the auto-detect step only ever raises the flag. On a record whose
FEATURES.GOOGLE_SIGNIN is already true the step leaves the flag true, and the
record as a whole unchanged, whatever the client id is. -/
theorem autoDetect_only_raises (cfg : Config) (h : cfg.FEATURES.GOOGLE_SIGNIN = true) :
    (autoDetect cfg).FEATURES.GOOGLE_SIGNIN = true ∧ autoDetect cfg = cfg := by
  obtain ⟨cid, name, ver, url, ⟨g, e, w, u⟩⟩ := cfg
  simp only at h
  subst h
  unfold autoDetect
  split <;> simp

theorem autoDetect_only_raises_witness :
    ((presetRecord "DEMO_CLIENT_ID").FEATURES.GOOGLE_SIGNIN = true ∧
      (autoDetect (presetRecord "DEMO_CLIENT_ID")).FEATURES.GOOGLE_SIGNIN = true ∧
      autoDetect (presetRecord "DEMO_CLIENT_ID") = presetRecord "DEMO_CLIENT_ID") ∧
    ((presetRecord "").FEATURES.GOOGLE_SIGNIN = true ∧
      (autoDetect (presetRecord "")).FEATURES.GOOGLE_SIGNIN = true ∧
      autoDetect (presetRecord "") = presetRecord "") :=
  ⟨⟨rfl, autoDetect_only_raises (presetRecord "DEMO_CLIENT_ID") rfl⟩,
   ⟨rfl, autoDetect_only_raises (presetRecord "") rfl⟩⟩

/-! ## The script as a whole -/

/-- C9: for every origin string o supplied by the host, the script completes
with API_BASE_URL equal to o exactly, for every client id. -/
theorem api_base_url_is_origin (c : String) (env : Env) (o : String)
    (ho : readOrigin env = .ok (.str o)) (hm : env.module ≠ some .null) :
    ∃ r, loadModule c env = .ok r ∧ r.config.API_BASE_URL = .str o := by
  obtain ⟨wprops, _, h | h⟩ := loadModule_ok c env (.str o) ho hm
  · obtain ⟨mprops, _, _, hl⟩ := h
    exact ⟨_, hl, initConfig_API_BASE_URL c _⟩
  · exact ⟨_, h.2, initConfig_API_BASE_URL c _⟩

theorem api_base_url_is_origin_witness :
    readOrigin (commonJSEnv "https://skycast.example/") = .ok (.str "https://skycast.example/") ∧
    (commonJSEnv "https://skycast.example/").module ≠ some .null ∧
    ∃ r, loadModule "1234.apps.googleusercontent.com" (commonJSEnv "https://skycast.example/")
        = .ok r ∧ r.config.API_BASE_URL = .str "https://skycast.example/" :=
  ⟨readOrigin_commonJSEnv _, commonJSEnv_module_ne_null _,
   api_base_url_is_origin "1234.apps.googleusercontent.com"
     (commonJSEnv "https://skycast.example/") "https://skycast.example/"
     (readOrigin_commonJSEnv _) (commonJSEnv_module_ne_null _)⟩

/-- C6: in every host where the script completes, the finished record is
published in exactly one place. The export test of line 31 holds exactly when
module is an object with a truthy exports; then the record becomes
module.exports and window is left as it was; otherwise the record is assigned to
window.CONFIG and module is left as it was. -/
theorem publish_exactly_one (c : String) (env : Env) (o : JSVal)
    (ho : readOrigin env = .ok o) (hm : env.module ≠ some .null) :
    ∃ r, loadModule c env = .ok r ∧ r.config = initConfig c o ∧
      (moduleCond env = .ok true ↔
        ∃ mprops, env.module = some (.obj mprops) ∧
          truthy (lookupProp "exports" mprops) = true) ∧
      (moduleCond env = .ok true →
        (∃ m', r.env.module = some m' ∧ getProp m' "exports" = .ok r.config.toJS) ∧
          r.env.window = env.window) ∧
      (moduleCond env ≠ .ok true →
        (∃ w', r.env.window = some w' ∧ getProp w' "CONFIG" = .ok r.config.toJS) ∧
          r.env.module = env.module) := by
  obtain ⟨wprops, hw, h | h⟩ := loadModule_ok c env o ho hm
  · obtain ⟨mprops, hmod, hc, hl⟩ := h
    refine ⟨_, hl, rfl, moduleCond_true_iff env, ?_, ?_⟩
    · intro _
      exact ⟨⟨_, rfl, by simp [getProp, lookupProp_assignProp_same]⟩, rfl⟩
    · intro hne
      exact absurd hc hne
  · obtain ⟨hc, hl⟩ := h
    refine ⟨_, hl, rfl, moduleCond_true_iff env, ?_, ?_⟩
    · intro ht
      rw [hc] at ht
      simp at ht
    · intro _
      exact ⟨⟨_, rfl, by simp [getProp, lookupProp_assignProp_same]⟩, rfl⟩

theorem publish_exactly_one_witness :
    (readOrigin (commonJSEnv "https://skycast.example") = .ok (.str "https://skycast.example") ∧
      (commonJSEnv "https://skycast.example").module ≠ some .null ∧
      ∃ r, loadModule shippedClientId (commonJSEnv "https://skycast.example") = .ok r ∧
        (∃ m', r.env.module = some m' ∧ getProp m' "exports" = .ok r.config.toJS) ∧
        r.env.window = (commonJSEnv "https://skycast.example").window) ∧
    (readOrigin (browserEnv "https://skycast.example") = .ok (.str "https://skycast.example") ∧
      (browserEnv "https://skycast.example").module ≠ some .null ∧
      ∃ r, loadModule shippedClientId (browserEnv "https://skycast.example") = .ok r ∧
        (∃ w', r.env.window = some w' ∧ getProp w' "CONFIG" = .ok r.config.toJS) ∧
        r.env.module = (browserEnv "https://skycast.example").module) := by
  refine ⟨⟨readOrigin_commonJSEnv _, commonJSEnv_module_ne_null _, ?_⟩,
    ⟨readOrigin_browserEnv _, browserEnv_module_ne_null _, ?_⟩⟩
  · obtain ⟨r, hl, _, _, ht, _⟩ :=
      publish_exactly_one shippedClientId (commonJSEnv "https://skycast.example")
        (.str "https://skycast.example") (readOrigin_commonJSEnv _)
        (commonJSEnv_module_ne_null _)
    exact ⟨r, hl, ht (by simp [moduleCond, commonJSEnv, isDefined, getProp, lookupProp, truthy])⟩
  · obtain ⟨r, hl, _, _, _, hf⟩ :=
      publish_exactly_one shippedClientId (browserEnv "https://skycast.example")
        (.str "https://skycast.example") (readOrigin_browserEnv _)
        (browserEnv_module_ne_null _)
    exact ⟨r, hl, hf (by simp [moduleCond, browserEnv])⟩

/-- C4: initialising twice gives the same record as initialising once. For every
client id and every origin value, the auto-detect step applied to the
initialised record returns that record, equal in every field; more generally
the step applied twice to any settings record equals the step applied once. -/
theorem initialization_idempotent (c : String) (o : JSVal) :
    autoDetect (initConfig c o) = initConfig c o ∧
    (autoDetect (initConfig c o)).GOOGLE_CLIENT_ID = (initConfig c o).GOOGLE_CLIENT_ID ∧
    (autoDetect (initConfig c o)).APP_NAME = (initConfig c o).APP_NAME ∧
    (autoDetect (initConfig c o)).APP_VERSION = (initConfig c o).APP_VERSION ∧
    (autoDetect (initConfig c o)).API_BASE_URL = (initConfig c o).API_BASE_URL ∧
    (autoDetect (initConfig c o)).FEATURES = (initConfig c o).FEATURES ∧
    ∀ cfg : Config, autoDetect (autoDetect cfg) = autoDetect cfg := by
  have h : autoDetect (initConfig c o) = initConfig c o := by
    unfold initConfig
    exact autoDetect_idem _
  refine ⟨h, ?_, ?_, ?_, ?_, ?_, autoDetect_idem⟩ <;> rw [h]

/-! ## Hosts without a usable origin -/

/-- C5, on the code as written: with no window identifier the script raises
ReferenceError, with a window lacking location it raises TypeError, and with a
location lacking origin it completes with API_BASE_URL undefined, which is not
the empty string. -/
theorem origin_unavailable_counterexample :
    loadModule shippedClientId noWindowEnv = .error .ReferenceError ∧
    loadModule shippedClientId noLocationEnv = .error .TypeError ∧
    ∃ r, loadModule shippedClientId noOriginEnv = .ok r ∧
      r.config.API_BASE_URL = .undefined ∧ r.config.API_BASE_URL ≠ .str "" := by
  refine ⟨rfl, ?_, ?_⟩
  · simp [loadModule, readOrigin, readGlobal, noLocationEnv, getProp, lookupProp]
  · have ho : readOrigin noOriginEnv = .ok .undefined := by
      simp [readOrigin, readGlobal, noOriginEnv, getProp, lookupProp]
    obtain ⟨wprops, _, h | h⟩ :=
      loadModule_ok shippedClientId noOriginEnv .undefined ho (by simp [noOriginEnv])
    · obtain ⟨mprops, _, _, hl⟩ := h
      exact ⟨_, hl, initConfig_API_BASE_URL _ _, by simp [initConfig_API_BASE_URL]⟩
    · exact ⟨_, h.2, initConfig_API_BASE_URL _ _, by simp [initConfig_API_BASE_URL]⟩

/-- C5 as amended: the script has no fallback for a missing origin. For every
client id and every host,
(a) if window is not declared the script raises ReferenceError;
(b) if window is undefined or null, or window.location is undefined or null, the
    script raises TypeError;
(c) if window.location.origin reads as undefined and module is not bound to
    null, the script completes without raising, API_BASE_URL is undefined, and
    the client id, the app metadata and the feature flags are those of a run
    with any origin;
(d) if module is bound to null the export test of line 31 raises TypeError,
    whatever the origin reads as, so the condition on module in (c) is needed. -/
theorem origin_unavailable (c : String) (env : Env) :
    (env.window = none → loadModule c env = .error .ReferenceError) ∧
    (∀ w, env.window = some w →
      (w = .undefined ∨ w = .null ∨
        getProp w "location" = .ok .undefined ∨ getProp w "location" = .ok .null) →
      loadModule c env = .error .TypeError) ∧
    (readOrigin env = .ok .undefined → env.module ≠ some .null →
      ∃ r, loadModule c env = .ok r ∧ r.config.API_BASE_URL = .undefined ∧
        ∀ o, r.config.GOOGLE_CLIENT_ID = (initConfig c o).GOOGLE_CLIENT_ID ∧
          r.config.APP_NAME = (initConfig c o).APP_NAME ∧
          r.config.APP_VERSION = (initConfig c o).APP_VERSION ∧
          r.config.FEATURES = (initConfig c o).FEATURES) ∧
    (∀ o, readOrigin env = .ok o → env.module = some .null →
      loadModule c env = .error .TypeError) := by
  refine ⟨?_, ?_, ?_, ?_⟩
  · intro hw
    simp [loadModule, readOrigin, hw, readGlobal]
  · intro w hw hcase
    rcases hcase with h | h | h | h
    · subst h
      simp [loadModule, readOrigin, hw, readGlobal, getProp]
    · subst h
      simp [loadModule, readOrigin, hw, readGlobal, getProp]
    · have hr : readOrigin env = .error .TypeError := by
        simp only [readOrigin, hw, readGlobal, h]
        rfl
      simp [loadModule, hr]
    · have hr : readOrigin env = .error .TypeError := by
        simp only [readOrigin, hw, readGlobal, h]
        rfl
      simp [loadModule, hr]
  · intro ho hm
    obtain ⟨wprops, _, h | h⟩ := loadModule_ok c env .undefined ho hm
    · obtain ⟨mprops, _, _, hl⟩ := h
      exact ⟨_, hl, initConfig_API_BASE_URL _ _, fun o => initConfig_origin_indep c _ o⟩
    · exact ⟨_, h.2, initConfig_API_BASE_URL _ _, fun o => initConfig_origin_indep c _ o⟩
  · intro o ho hnull
    simp [loadModule, ho, publish, moduleCond, hnull, isDefined, getProp]

theorem origin_unavailable_witness :
    (noWindowEnv.window = none ∧
      loadModule "1234.apps.googleusercontent.com" noWindowEnv = .error .ReferenceError) ∧
    (noLocationEnv.window = some (.obj []) ∧
      getProp (.obj []) "location" = .ok .undefined ∧
      loadModule "1234.apps.googleusercontent.com" noLocationEnv = .error .TypeError) ∧
    (readOrigin noOriginEnv = .ok .undefined ∧ noOriginEnv.module ≠ some .null ∧
      ∃ r, loadModule "1234.apps.googleusercontent.com" noOriginEnv = .ok r ∧
        r.config.API_BASE_URL = .undefined ∧
        r.config.FEATURES =
          (initConfig "1234.apps.googleusercontent.com" (.str "https://skycast.example")).FEATURES) ∧
    (readOrigin nullModuleEnv = .ok .undefined ∧ nullModuleEnv.module = some .null ∧
      loadModule "1234.apps.googleusercontent.com" nullModuleEnv = .error .TypeError) := by
  have ho : readOrigin noOriginEnv = .ok .undefined := by
    simp [readOrigin, readGlobal, noOriginEnv, getProp, lookupProp]
  have hm : noOriginEnv.module ≠ some .null := by simp [noOriginEnv]
  have hn : readOrigin nullModuleEnv = .ok .undefined := by
    simp [readOrigin, readGlobal, nullModuleEnv, getProp, lookupProp]
  refine ⟨⟨rfl, (origin_unavailable _ noWindowEnv).1 rfl⟩,
    ⟨rfl, rfl, (origin_unavailable _ noLocationEnv).2.1 (.obj []) rfl (Or.inr (Or.inr (Or.inl rfl)))⟩,
    ⟨ho, hm, ?_⟩,
    ⟨hn, rfl, (origin_unavailable _ nullModuleEnv).2.2.2 .undefined hn rfl⟩⟩
  obtain ⟨r, hl, hu, hall⟩ :=
    (origin_unavailable "1234.apps.googleusercontent.com" noOriginEnv).2.2.1 ho hm
  exact ⟨r, hl, hu, (hall (.str "https://skycast.example")).2.2.2⟩

end Skycast
